import Mathlib

/-!
Formal model of `src/server.py` (claude_code-gemini-mcp): a stdin/stdout
JSON-RPC server exposing Gemini-backed tools (`ask_gemini`,
`gemini_code_review`, `gemini_brainstorm`, `server_info`).

Python values flowing through the handlers are modelled by the `Json`
type; the upstream `generate_content` call is an opaque function taking
the model name, the final prompt, the temperature and the max-token
budget, returning either text or a raised exception (`Except.error`).
-/

namespace GeminiMCP

/-- JSON values as produced by Python's `json.loads`.  Python dicts keep
insertion order and are modelled as association lists. -/
inductive Json where
  | null
  | bool (b : Bool)
  | num (q : Rat)
  | str (s : String)
  | arr (elems : List Json)
  | obj (fields : List (String × Json))

/-- Python truthiness (`if x:`) for the JSON values that can appear here:
`None`, `False`, `0`, `""`, `[]` and `\x7b\x7d` are falsy. -/
def pyTruthy : Json → Bool
  | .null => false
  | .bool b => b
  | .num q => q != 0
  | .str s => s != ""
  | .arr elems => !elems.isEmpty
  | .obj fields => !fields.isEmpty

mutual

/-- Python `repr` of a JSON value, as used by `str()` on containers.
Numeric and nested-string rendering approximate CPython (`1/2` instead of
`0.5`, no escaping inside quoted strings); no request path exercised by
the claims formats a container or a non-integer number. -/
def pyRepr : Json → String
  | .null => "None"
  | .bool true => "True"
  | .bool false => "False"
  | .num q => if q.den == 1 then toString q.num else toString q
  | .str s => "\x27" ++ s ++ "\x27"
  | .arr elems => "[" ++ pyReprList elems ++ "]"
  | .obj fields => "\x7b" ++ pyReprFields fields ++ "\x7d"

/-- Comma-separated `repr` of list elements. -/
def pyReprList : List Json → String
  | [] => ""
  | [x] => pyRepr x
  | x :: y :: rest => pyRepr x ++ ", " ++ pyReprList (y :: rest)

/-- Comma-separated `repr` of dict entries. -/
def pyReprFields : List (String × Json) → String
  | [] => ""
  | [(k, v)] => "\x27" ++ k ++ "\x27: " ++ pyRepr v
  | (k, v) :: f :: rest =>
      "\x27" ++ k ++ "\x27: " ++ pyRepr v ++ ", " ++ pyReprFields (f :: rest)

end

/-- Python `str()` of a JSON value, as used by f-string interpolation:
a string renders as itself, everything else as its `repr`. -/
def pyStr : Json → String
  | .str s => s
  | j => pyRepr j

/-- Python `==` between a JSON value and a string literal: true exactly
when the value is that string (a non-string never equals a string). -/
def jsonIsStr (j : Json) (s : String) : Bool :=
  match j with
  | .str t => t == s
  | _ => false

/-- Python `dict.get(key, default)` on an association list. -/
def dictGet (fields : List (String × Json)) (key : String) (dflt : Json) : Json :=
  match fields.find? (fun kv => kv.1 == key) with
  | some kv => kv.2
  | none => dflt

/-- CPython's `AttributeError` message for `x.get(...)` on a non-mapping
(runtime detail; no claim depends on this text). -/
def pyTypeName : Json → String
  | .null => "NoneType"
  | .bool _ => "bool"
  | .num q => if q.den == 1 then "int" else "float"
  | .str _ => "str"
  | .arr _ => "list"
  | .obj _ => "dict"

/-- Message of the `AttributeError` raised when `.get` is called on a
non-mapping value (`params` or `arguments` that are not JSON objects). -/
def attrErrMsg (j : Json) : String :=
  "\x27" ++ pyTypeName j ++ "\x27 object has no attribute \x27get\x27"

/-- `AVAILABLE_MODELS` (server.py lines 20-28), in insertion order. -/
def AVAILABLE_MODELS : List (String × String) := [
  ("gemini-2.5-flash", "Latest, best price-performance ratio"),
  ("gemini-2.0-flash", "Newest multimodal with next-gen features"),
  ("gemini-2.0-flash-lite", "Cost-efficient with low latency"),
  ("gemini-1.5-pro-latest", "Powerful with long context (up to 1M tokens)"),
  ("gemini-1.5-flash", "Fast and versatile multimodal"),
  ("gemini-1.5-flash-8b", "Small model for simple tasks"),
  ("gemini-1.0-pro-latest", "Legacy model with 32k context")]

/-- `DEFAULT_MODEL` (server.py line 31). -/
def DEFAULT_MODEL : String := "gemini-2.0-flash"

/-- `__version__` (server.py line 17). -/
def serverVersion : String := "1.0.0"

/-- Membership lookup in `AVAILABLE_MODELS` (Python dict membership). -/
def lookupModel (m : String) : Option String :=
  (AVAILABLE_MODELS.find? (fun kv => kv.1 == m)).map (fun kv => kv.2)

/-- `os.path.basename`: the final path component. -/
def basename (p : String) : String :=
  List.getLastD (p.splitOn "/") p

/-- Startup model selection (server.py lines 70-75): the `GEMINI_MODEL`
environment value is kept only when it is the default or a known model;
otherwise the default is used. -/
def mkModelName : Option String → String
  | none => DEFAULT_MODEL
  | some envName =>
      if envName != DEFAULT_MODEL && (lookupModel envName).isNone then DEFAULT_MODEL
      else envName

/-- Process-wide state computed at startup, read-only afterwards:
`GEMINI_AVAILABLE`, `GEMINI_ERROR`, `MODEL_NAME`, `DEFAULT_SYSTEM_PROMPT`
and `SYSTEM_PROMPT_FILE` (server.py lines 33-84). -/
structure ServerState where
  geminiAvailable : Bool
  geminiError : String
  modelName : String
  systemPrompt : String
  systemPromptFile : String

/-- The opaque upstream completion call
(`genai.GenerativeModel(name).generate_content(prompt, config)`):
model name, final prompt, temperature, max output tokens; returns the
response text or raises (`Except.error`). -/
abbrev Upstream := String → Json → Json → Nat → Except String String

/-- A JSON-RPC error object: `code` and `message`. -/
structure RpcError where
  code : Int
  message : String

/-- Payload of a response: exactly one of `result` or `error`. -/
inductive Payload where
  | result (r : Json)
  | error (e : RpcError)

/-- A JSON-RPC response envelope (`jsonrpc: "2.0"` is constant and
omitted): the echoed `id` and the payload. -/
structure Response where
  id : Json
  payload : Payload

/-- Success envelope for a tool call (server.py lines 297-308): a single
text content block carrying the marker-prefixed result. -/
def okToolResponse (requestId : Json) (text : String) : Response :=
  { id := requestId
    payload := .result (.obj [("content", .arr [
        .obj [("type", .str "text"), ("text", .str text)]])]) }

/-- Error envelope with a code and message. -/
def errResponse (requestId : Json) (code : Int) (msg : String) : Response :=
  { id := requestId, payload := .error { code := code, message := msg } }

/-- `handle_initialize` (server.py lines 90-105). -/
def handle_initialize (requestId : Json) : Response :=
  { id := requestId
    payload := .result (.obj [
      ("protocolVersion", .str "2024-11-05"),
      ("capabilities", .obj [("tools", .obj [])]),
      ("serverInfo", .obj [
        ("name", .str "claude-gemini-mcp"),
        ("version", .str serverVersion)])]) }

/-- The `ask_gemini` tool descriptor (server.py lines 113-141); the model
description and default embed the startup `MODEL_NAME`. -/
def askGeminiTool (modelName : String) : Json :=
  .obj [
    ("name", .str "ask_gemini"),
    ("description", .str "Ask Gemini a question and get the response directly in Claude\x27s context"),
    ("inputSchema", .obj [
      ("type", .str "object"),
      ("properties", .obj [
        ("prompt", .obj [
          ("type", .str "string"),
          ("description", .str "The question or prompt for Gemini")]),
        ("temperature", .obj [
          ("type", .str "number"),
          ("description", .str "Temperature for response (0.0-1.0)"),
          ("default", .num (0.5 : Rat))]),
        ("model", .obj [
          ("type", .str "string"),
          ("description", .str ("Model to use. Available: " ++
            String.intercalate ", " (AVAILABLE_MODELS.map (fun kv => kv.1)) ++
            ". Default: " ++ modelName)),
          ("default", .str modelName)]),
        ("include_system_prompt", .obj [
          ("type", .str "boolean"),
          ("description", .str "Include system prompt from GEMINI.md. Default: true"),
          ("default", .bool true)])]),
      ("required", .arr [.str "prompt"])])]

/-- The `gemini_code_review` tool descriptor (server.py lines 142-160). -/
def codeReviewTool : Json :=
  .obj [
    ("name", .str "gemini_code_review"),
    ("description", .str "Have Gemini review code and return feedback directly to Claude"),
    ("inputSchema", .obj [
      ("type", .str "object"),
      ("properties", .obj [
        ("code", .obj [
          ("type", .str "string"),
          ("description", .str "The code to review")]),
        ("focus", .obj [
          ("type", .str "string"),
          ("description", .str "Specific focus area (security, performance, etc.)"),
          ("default", .str "general")])]),
      ("required", .arr [.str "code"])])]

/-- The `gemini_brainstorm` tool descriptor (server.py lines 161-179). -/
def brainstormTool : Json :=
  .obj [
    ("name", .str "gemini_brainstorm"),
    ("description", .str "Brainstorm solutions with Gemini, response visible to Claude"),
    ("inputSchema", .obj [
      ("type", .str "object"),
      ("properties", .obj [
        ("topic", .obj [
          ("type", .str "string"),
          ("description", .str "The topic to brainstorm about")]),
        ("context", .obj [
          ("type", .str "string"),
          ("description", .str "Additional context"),
          ("default", .str "")])]),
      ("required", .arr [.str "topic"])])]

/-- The `server_info` tool descriptor (server.py lines 182-191). -/
def serverInfoTool : Json :=
  .obj [
    ("name", .str "server_info"),
    ("description", .str "Get server status and error information"),
    ("inputSchema", .obj [
      ("type", .str "object"),
      ("properties", .obj [])])]

/-- `handle_tools_list` (server.py lines 107-199): the three functional
tools when Gemini initialized, only `server_info` otherwise. -/
def handle_tools_list (st : ServerState) (requestId : Json) : Response :=
  { id := requestId
    payload := .result (.obj [("tools", .arr
      (if st.geminiAvailable then
        [askGeminiTool st.modelName, codeReviewTool, brainstormTool]
      else
        [serverInfoTool]))]) }

/-- The unknown-model remediation message (server.py lines 207-208). -/
def unknownModelMsg (modelName : Json) : String :=
  "❌ Unknown model \x27" ++ pyStr modelName ++ "\x27\n\nTry one of these:\n" ++
  String.intercalate "\n"
    (AVAILABLE_MODELS.map (fun kv => "• " ++ kv.1 ++ " - " ++ kv.2))

/-- The prompt actually sent upstream (server.py lines 214-217): the
system prompt is prepended when requested and non-empty. -/
def finalPrompt (st : ServerState) (prompt includeSystemPrompt : Json) : Json :=
  if pyTruthy includeSystemPrompt && st.systemPrompt != "" then
    .str (st.systemPrompt ++ "\n\n---\n\nUser Request:\n" ++ pyStr prompt)
  else prompt

/-- The upstream call and result formatting of `call_gemini`
(server.py lines 214-231) once the model to use is fixed: a raised
exception becomes the `Error calling Gemini:` string, and a non-default
model prefixes the `Using` banner. -/
def runModel (st : ServerState) (up : Upstream) (usedModel : String)
    (prompt temperature includeSystemPrompt : Json) : String :=
  match up usedModel (finalPrompt st prompt includeSystemPrompt) temperature 8192 with
  | .ok text =>
      if usedModel != DEFAULT_MODEL then "✨ Using " ++ usedModel ++ "\n\n" ++ text
      else text
  | .error e => "Error calling Gemini: " ++ e

/-- `call_gemini` (server.py lines 201-231).  A truthy model argument
different from the startup model is checked against `AVAILABLE_MODELS`;
unknown names yield the remediation message without any upstream call.
The membership test `model_name not in AVAILABLE_MODELS` (line 206)
raises `TypeError` for an unhashable value (a JSON array or object),
which the function-level `except` (line 230) turns into the
`Error calling Gemini:` string — also with no upstream call; a hashable
non-string (`True`, a number) is simply never a key of the dict, so it
reaches the remediation message. -/
def call_gemini (st : ServerState) (up : Upstream)
    (prompt temperature modelName includeSystemPrompt : Json) : String :=
  if pyTruthy modelName && !jsonIsStr modelName st.modelName then
    match modelName with
    | .str m =>
        if (lookupModel m).isNone then unknownModelMsg (.str m)
        else runModel st up m prompt temperature includeSystemPrompt
    | .arr _ => "Error calling Gemini: unhashable type: \x27list\x27"
    | .obj _ => "Error calling Gemini: unhashable type: \x27dict\x27"
    | other => unknownModelMsg other
  else
    runModel st up st.modelName prompt temperature includeSystemPrompt

/-- The `server_info` tool body (server.py lines 241-250). -/
def serverInfoText (st : ServerState) : String :=
  if st.geminiAvailable then
    let base := "Server v" ++ serverVersion ++ " - Gemini connected and ready!"
    let base := if st.modelName != DEFAULT_MODEL then
        base ++ "\n✨ Using model: " ++ st.modelName
      else base
    if st.systemPrompt != "" then
      base ++ "\n📝 System prompt loaded from " ++ basename st.systemPromptFile
    else base
  else
    "Server v" ++ serverVersion ++ " - Gemini error: " ++ st.geminiError

/-- The `gemini_code_review` prompt template (server.py lines 268-279). -/
def codeReviewPrompt (code focus : Json) : String :=
  "Please review this code with a focus on " ++ pyStr focus ++ ":\n\n```\n" ++
  pyStr code ++
  "\n```\n\nProvide specific, actionable feedback on:\n1. Potential issues or bugs\n2. Security concerns\n3. Performance optimizations\n4. Best practices\n5. Code clarity and maintainability"

/-- The `gemini_brainstorm` prompt template (server.py lines 288-291). -/
def brainstormPrompt (topic context : Json) : String :=
  let p := "Let\x27s brainstorm about: " ++ pyStr topic
  let p := if pyTruthy context then p ++ "\n\nContext: " ++ pyStr context else p
  p ++ "\n\nProvide creative ideas, alternatives, and considerations."

/-- The body of the `try` block of `handle_tool_call` (server.py lines
238-295): `Except.error` models an exception raised inside the `try`
(`ValueError` for unknown tools, `AttributeError` for non-mapping
`arguments`), carrying its `str()`. -/
def toolResultText (st : ServerState) (up : Upstream)
    (toolName arguments : Json) : Except String String :=
  if jsonIsStr toolName "server_info" then
    .ok (serverInfoText st)
  else if jsonIsStr toolName "ask_gemini" then
    if !st.geminiAvailable then .ok ("Gemini not available: " ++ st.geminiError)
    else match arguments with
      | .obj afields =>
          .ok (call_gemini st up
            (dictGet afields "prompt" (.str ""))
            (dictGet afields "temperature" (.num (0.5 : Rat)))
            (dictGet afields "model" .null)
            (dictGet afields "include_system_prompt" (.bool true)))
      | other => .error (attrErrMsg other)
  else if jsonIsStr toolName "gemini_code_review" then
    if !st.geminiAvailable then .ok ("Gemini not available: " ++ st.geminiError)
    else match arguments with
      | .obj afields =>
          .ok (call_gemini st up
            (.str (codeReviewPrompt (dictGet afields "code" (.str ""))
                    (dictGet afields "focus" (.str "general"))))
            (.num (0.2 : Rat)) .null (.bool true))
      | other => .error (attrErrMsg other)
  else if jsonIsStr toolName "gemini_brainstorm" then
    if !st.geminiAvailable then .ok ("Gemini not available: " ++ st.geminiError)
    else match arguments with
      | .obj afields =>
          .ok (call_gemini st up
            (.str (brainstormPrompt (dictGet afields "topic" (.str ""))
                    (dictGet afields "context" (.str ""))))
            (.num (0.7 : Rat)) .null (.bool true))
      | other => .error (attrErrMsg other)
  else
    .error ("Unknown tool: " ++ pyStr toolName)

/-- Outcome of `handle_tool_call`: either a response, or an exception
escaping the function (only possible before its `try`, when `params` is
not a mapping and `params.get` raises `AttributeError`). -/
inductive HandlerOutcome where
  | responded (r : Response)
  | raised (msg : String)

/-- `handle_tool_call` (server.py lines 233-317): extract the tool name
and arguments, run the tool, wrap success in a marker-prefixed content
block and any exception from the `try` body in a `-32603` error. -/
def handle_tool_call (st : ServerState) (up : Upstream)
    (requestId params : Json) : HandlerOutcome :=
  match params with
  | .obj pfields =>
      let toolName := dictGet pfields "name" .null
      let arguments := dictGet pfields "arguments" (.obj [])
      match toolResultText st up toolName arguments with
      | .ok result =>
          .responded (okToolResponse requestId ("🤖 GEMINI RESPONSE:\n\n" ++ result))
      | .error msg => .responded (errResponse requestId (-32603) msg)
  | other => .raised (attrErrMsg other)

/-- One line of standard input, after the external `json.loads`:
either it failed to parse, or it parsed to a JSON value. -/
inductive InLine where
  | malformed
  | parsed (j : Json)

/-- One iteration of the `main` loop (server.py lines 321-363) on an
input line.  The state is the binding of the local `request_id` from
earlier iterations (`None` before any request bound it): the outer
exception handler echoes it only when `request_id` is in `locals()`.
Malformed JSON is skipped silently; a parsed non-mapping makes
`request.get` raise before `request_id` is (re)bound. -/
def processLine (st : ServerState) (up : Upstream)
    (s : Option Json) : InLine → Option Json × List Response
  | .malformed => (s, [])
  | .parsed (.obj fields) =>
      let method := dictGet fields "method" .null
      let requestId := dictGet fields "id" .null
      let params := dictGet fields "params" (.obj [])
      let response :=
        if jsonIsStr method "initialize" then handle_initialize requestId
        else if jsonIsStr method "tools/list" then handle_tools_list st requestId
        else if jsonIsStr method "tools/call" then
          match handle_tool_call st up requestId params with
          | .responded r => r
          | .raised e => errResponse requestId (-32603) ("Internal error: " ++ e)
        else errResponse requestId (-32601) ("Method not found: " ++ pyStr method)
      (some requestId, [response])
  | .parsed j =>
      match s with
      | some lastId => (s, [errResponse lastId (-32603) ("Internal error: " ++ attrErrMsg j)])
      | none => (s, [])

/-- The `main` loop over a whole input stream: each response in the
returned list is one line written to standard output. -/
def processLines (st : ServerState) (up : Upstream) :
    Option Json → List InLine → List Response
  | _, [] => []
  | s, l :: rest =>
      let step := processLine st up s l
      step.2 ++ processLines st up step.1 rest

/-- Tool names accepted by the `handle_tool_call` dispatch chain
(server.py lines 241, 252, 262, 282); any other name reaches the
`raise ValueError` branch. -/
def isKnownTool (j : Json) : Bool :=
  jsonIsStr j "server_info" || jsonIsStr j "ask_gemini" ||
  jsonIsStr j "gemini_code_review" || jsonIsStr j "gemini_brainstorm"

/-- Extract the list of tool names from a `tools/list` response. -/
def responseToolNames (r : Response) : Option (List Json) :=
  match r.payload with
  | .result (.obj [("tools", .arr ts)]) =>
      some (ts.map (fun t => match t with | .obj fs => dictGet fs "name" .null | _ => .null))
  | _ => none

/-- A concrete healthy startup state: Gemini initialized with the default
model and no system prompt. -/
def sampleState : ServerState :=
  { geminiAvailable := true, geminiError := "", modelName := DEFAULT_MODEL,
    systemPrompt := "",
    systemPromptFile := "~/.claude-mcp-servers/gemini-collab/GEMINI.md" }

/-- An upstream that always answers with the text `TEXT`. -/
def okUpstream : Upstream := fun _ _ _ _ => .ok "TEXT"

/-- An upstream that always raises with detail `boom`. -/
def failUpstream : Upstream := fun _ _ _ _ => .error "boom"

/-- Helper: once `call_gemini` has fixed the model to use, the upstream
outcome determines the returned string — an exception becomes the
`Error calling Gemini:` message, text is returned as is or behind the
`Using` banner. -/
theorem runModel_cases (st : ServerState) (up : Upstream) (used : String)
    (p tq i : Json) :
    (∃ e, up used (finalPrompt st p i) tq 8192 = .error e ∧
        runModel st up used p tq i = "Error calling Gemini: " ++ e) ∨
    (∃ t, up used (finalPrompt st p i) tq 8192 = .ok t ∧
        (runModel st up used p tq i = t ∨
         runModel st up used p tq i = "✨ Using " ++ used ++ "\n\n" ++ t)) := by
  have hrm : runModel st up used p tq i =
      match up used (finalPrompt st p i) tq 8192 with
      | .ok text =>
          if (used != DEFAULT_MODEL) = true then "✨ Using " ++ used ++ "\n\n" ++ text
          else text
      | .error e => "Error calling Gemini: " ++ e := rfl
  cases hu : up used (finalPrompt st p i) tq 8192 with
  | error e =>
      rw [hu] at hrm
      exact Or.inl ⟨e, rfl, hrm⟩
  | ok t =>
      rw [hu] at hrm
      simp only [] at hrm
      by_cases hd : (used != DEFAULT_MODEL) = true
      · rw [if_pos hd] at hrm
        exact Or.inr ⟨t, rfl, Or.inr hrm⟩
      · rw [if_neg hd] at hrm
        exact Or.inr ⟨t, rfl, Or.inl hrm⟩

/-- Claim C1, counterexample: calling `ask_gemini` with `model` set to the
empty string — a name outside the known-model set — does not return the
known-model listing: the falsy value skips the unknown-model check and
the default model is called, so the text is the upstream answer. -/
theorem empty_model_name_skips_unknown_model_listing :
    lookupModel "" = none ∧
    handle_tool_call sampleState okUpstream (Json.num 1)
      (.obj [("name", Json.str "ask_gemini"),
             ("arguments", Json.obj [("prompt", Json.str "hi"), ("model", Json.str "")])]) =
      .responded (okToolResponse (Json.num 1) "🤖 GEMINI RESPONSE:\n\nTEXT") ∧
    ("🤖 GEMINI RESPONSE:\n\nTEXT" : String) ≠
      "🤖 GEMINI RESPONSE:\n\n" ++ unknownModelMsg (Json.str "") :=
  ⟨rfl, rfl, by decide⟩

/-- Claim C1 (amended): for every `tools/call` of `ask_gemini` whose
`model` argument is a nonempty name outside the known-model set (model
client available, startup model valid), the response is a success
envelope whose text lists the known models — never an error envelope. -/
theorem ask_unknown_model_reported_as_tool_result
    (st : ServerState) (up : Upstream) (rid : Json)
    (afields : List (String × Json)) (m : String)
    (hav : st.geminiAvailable = true)
    (hdef : (lookupModel st.modelName).isSome = true)
    (hm : dictGet afields "model" .null = .str m)
    (hne : m ≠ "")
    (hunk : lookupModel m = none) :
    handle_tool_call st up rid
      (.obj [("name", .str "ask_gemini"), ("arguments", .obj afields)]) =
    .responded (okToolResponse rid
      ("🤖 GEMINI RESPONSE:\n\n" ++ unknownModelMsg (.str m))) := by
  have hmne : m ≠ st.modelName := by
    intro hEq
    rw [hEq] at hunk
    rw [hunk] at hdef
    simp at hdef
  have hcond : (pyTruthy (Json.str m) && !jsonIsStr (Json.str m) st.modelName) = true := by
    simp only [pyTruthy, jsonIsStr, Bool.and_eq_true, Bool.not_eq_true', beq_eq_false_iff_ne,
      bne_iff_ne, ne_eq]
    exact ⟨hne, hmne⟩
  have h1 : dictGet [("name", Json.str "ask_gemini"), ("arguments", Json.obj afields)]
      "name" Json.null = Json.str "ask_gemini" := rfl
  have h2 : dictGet [("name", Json.str "ask_gemini"), ("arguments", Json.obj afields)]
      "arguments" (Json.obj []) = Json.obj afields := rfl
  simp only [handle_tool_call, h1, h2, toolResultText, hav, hm, call_gemini, hcond, hunk]
  rfl

/-- Claim C1 witness: the amended statement at the unknown nonempty model
name `bad-model`. -/
theorem ask_unknown_model_reported_as_tool_result_witness :
    lookupModel "bad-model" = none ∧
    handle_tool_call sampleState okUpstream Json.null
      (.obj [("name", .str "ask_gemini"),
             ("arguments", .obj [("model", Json.str "bad-model")])]) =
    .responded (okToolResponse Json.null
      ("🤖 GEMINI RESPONSE:\n\n" ++ unknownModelMsg (.str "bad-model"))) :=
  ⟨rfl, ask_unknown_model_reported_as_tool_result sampleState okUpstream Json.null
    [("model", Json.str "bad-model")] "bad-model" rfl rfl rfl (by decide) rfl⟩

/-- Claim C2 (confirmed): `tools/list` returns exactly the three
functional tools when the model client initialized, and exactly the
single `server_info` tool otherwise — never any other mix. -/
theorem tools_list_exact_registry (st : ServerState) (rid : Json) :
    responseToolNames (handle_tools_list st rid) =
    some (if st.geminiAvailable then
        [Json.str "ask_gemini", Json.str "gemini_code_review", Json.str "gemini_brainstorm"]
      else [Json.str "server_info"]) := by
  cases h : st.geminiAvailable <;> simp only [handle_tools_list, responseToolNames, h] <;> rfl

/-- Claim C3, counterexample: with an upstream that raises (`boom`), the
`ask_gemini` call returns a success envelope carrying the failure text —
not a `-32603` error envelope as the claim states. -/
theorem upstream_failure_not_error_envelope :
    handle_tool_call sampleState failUpstream (Json.num 7)
      (.obj [("name", Json.str "ask_gemini"),
             ("arguments", Json.obj [("prompt", Json.str "hi")])]) =
    .responded (okToolResponse (Json.num 7)
      "🤖 GEMINI RESPONSE:\n\nError calling Gemini: boom") := rfl

/-- Claim C3 (amended): for every `tools/call` on a model-calling tool
whose upstream call raises, the response is a success envelope whose
content text carries the failure detail behind the marker and the
`Error calling Gemini:` prefix — never a JSON-RPC error envelope. -/
theorem upstream_failure_reported_in_result_text
    (st : ServerState) (up : Upstream) (e : String) (rid : Json)
    (afields : List (String × Json))
    (hav : st.geminiAvailable = true)
    (hup : ∀ a b c d, up a b c d = Except.error e)
    (hmodel : dictGet afields "model" .null = .null) :
    handle_tool_call st up rid
      (.obj [("name", Json.str "ask_gemini"), ("arguments", Json.obj afields)]) =
      .responded (okToolResponse rid ("🤖 GEMINI RESPONSE:\n\nError calling Gemini: " ++ e)) ∧
    handle_tool_call st up rid
      (.obj [("name", Json.str "gemini_code_review"), ("arguments", Json.obj afields)]) =
      .responded (okToolResponse rid ("🤖 GEMINI RESPONSE:\n\nError calling Gemini: " ++ e)) ∧
    handle_tool_call st up rid
      (.obj [("name", Json.str "gemini_brainstorm"), ("arguments", Json.obj afields)]) =
      .responded (okToolResponse rid ("🤖 GEMINI RESPONSE:\n\nError calling Gemini: " ++ e)) := by
  have h1a : dictGet [("name", Json.str "ask_gemini"), ("arguments", Json.obj afields)]
      "name" Json.null = Json.str "ask_gemini" := rfl
  have h2a : dictGet [("name", Json.str "ask_gemini"), ("arguments", Json.obj afields)]
      "arguments" (Json.obj []) = Json.obj afields := rfl
  have h1b : dictGet [("name", Json.str "gemini_code_review"), ("arguments", Json.obj afields)]
      "name" Json.null = Json.str "gemini_code_review" := rfl
  have h2b : dictGet [("name", Json.str "gemini_code_review"), ("arguments", Json.obj afields)]
      "arguments" (Json.obj []) = Json.obj afields := rfl
  have h1c : dictGet [("name", Json.str "gemini_brainstorm"), ("arguments", Json.obj afields)]
      "name" Json.null = Json.str "gemini_brainstorm" := rfl
  have h2c : dictGet [("name", Json.str "gemini_brainstorm"), ("arguments", Json.obj afields)]
      "arguments" (Json.obj []) = Json.obj afields := rfl
  refine ⟨?_, ?_, ?_⟩ <;>
  · simp only [handle_tool_call, h1a, h2a, h1b, h2b, h1c, h2c, toolResultText, hav, hmodel,
      call_gemini, runModel, hup]
    rfl

/-- Claim C3 witness: the amended statement at a concrete always-raising
upstream. -/
theorem upstream_failure_reported_in_result_text_witness :
    (∀ a b c d, failUpstream a b c d = Except.error "boom") ∧
    (handle_tool_call sampleState failUpstream Json.null
      (.obj [("name", Json.str "ask_gemini"), ("arguments", Json.obj [])]) =
      .responded (okToolResponse Json.null
        ("🤖 GEMINI RESPONSE:\n\nError calling Gemini: " ++ "boom")) ∧
    handle_tool_call sampleState failUpstream Json.null
      (.obj [("name", Json.str "gemini_code_review"), ("arguments", Json.obj [])]) =
      .responded (okToolResponse Json.null
        ("🤖 GEMINI RESPONSE:\n\nError calling Gemini: " ++ "boom")) ∧
    handle_tool_call sampleState failUpstream Json.null
      (.obj [("name", Json.str "gemini_brainstorm"), ("arguments", Json.obj [])]) =
      .responded (okToolResponse Json.null
        ("🤖 GEMINI RESPONSE:\n\nError calling Gemini: " ++ "boom"))) :=
  ⟨fun _ _ _ _ => rfl,
   upstream_failure_reported_in_result_text sampleState failUpstream "boom" Json.null []
     rfl (fun _ _ _ _ => rfl) rfl⟩

/-- Claim C4, counterexample: calling `ask_gemini` with no `prompt`
argument produces a success envelope (the prompt defaults to the empty
string), not the `-32603` error envelope the claim states. -/
theorem missing_prompt_not_error_envelope :
    handle_tool_call sampleState okUpstream (Json.num 3)
      (.obj [("name", Json.str "ask_gemini"), ("arguments", Json.obj [])]) =
    .responded (okToolResponse (Json.num 3) "🤖 GEMINI RESPONSE:\n\nTEXT") := rfl

/-- Claim C4 (amended): for every `tools/call` on a known tool whose
arguments omit the required parameter (`prompt`, `code` or `topic`), the
parameter silently defaults to the empty string and handling proceeds to
the model call, producing a success envelope — no `-32603` error envelope
is produced for a missing argument. -/
theorem missing_required_argument_defaults
    (st : ServerState) (up : Upstream) (rid : Json)
    (afields : List (String × Json))
    (hav : st.geminiAvailable = true)
    (hp : afields.find? (fun kv => kv.1 == "prompt") = none)
    (hc : afields.find? (fun kv => kv.1 == "code") = none)
    (ht : afields.find? (fun kv => kv.1 == "topic") = none) :
    handle_tool_call st up rid
      (.obj [("name", Json.str "ask_gemini"), ("arguments", Json.obj afields)]) =
      .responded (okToolResponse rid ("🤖 GEMINI RESPONSE:\n\n" ++
        call_gemini st up (.str "") (dictGet afields "temperature" (.num (0.5 : Rat)))
          (dictGet afields "model" .null)
          (dictGet afields "include_system_prompt" (.bool true)))) ∧
    handle_tool_call st up rid
      (.obj [("name", Json.str "gemini_code_review"), ("arguments", Json.obj afields)]) =
      .responded (okToolResponse rid ("🤖 GEMINI RESPONSE:\n\n" ++
        call_gemini st up
          (.str (codeReviewPrompt (.str "") (dictGet afields "focus" (.str "general"))))
          (.num (0.2 : Rat)) .null (.bool true))) ∧
    handle_tool_call st up rid
      (.obj [("name", Json.str "gemini_brainstorm"), ("arguments", Json.obj afields)]) =
      .responded (okToolResponse rid ("🤖 GEMINI RESPONSE:\n\n" ++
        call_gemini st up
          (.str (brainstormPrompt (.str "") (dictGet afields "context" (.str ""))))
          (.num (0.7 : Rat)) .null (.bool true))) := by
  have hgp : dictGet afields "prompt" (.str "") = .str "" := by
    unfold dictGet; rw [hp]
  have hgc : dictGet afields "code" (.str "") = .str "" := by
    unfold dictGet; rw [hc]
  have hgt : dictGet afields "topic" (.str "") = .str "" := by
    unfold dictGet; rw [ht]
  have h1a : dictGet [("name", Json.str "ask_gemini"), ("arguments", Json.obj afields)]
      "name" Json.null = Json.str "ask_gemini" := rfl
  have h2a : dictGet [("name", Json.str "ask_gemini"), ("arguments", Json.obj afields)]
      "arguments" (Json.obj []) = Json.obj afields := rfl
  have h1b : dictGet [("name", Json.str "gemini_code_review"), ("arguments", Json.obj afields)]
      "name" Json.null = Json.str "gemini_code_review" := rfl
  have h2b : dictGet [("name", Json.str "gemini_code_review"), ("arguments", Json.obj afields)]
      "arguments" (Json.obj []) = Json.obj afields := rfl
  have h1c : dictGet [("name", Json.str "gemini_brainstorm"), ("arguments", Json.obj afields)]
      "name" Json.null = Json.str "gemini_brainstorm" := rfl
  have h2c : dictGet [("name", Json.str "gemini_brainstorm"), ("arguments", Json.obj afields)]
      "arguments" (Json.obj []) = Json.obj afields := rfl
  refine ⟨?_, ?_, ?_⟩ <;>
  · simp only [handle_tool_call, h1a, h2a, h1b, h2b, h1c, h2c, toolResultText, hav, hgp, hgc, hgt]
    rfl

/-- Claim C4 witness: the amended statement at empty argument mappings. -/
theorem missing_required_argument_defaults_witness :
    handle_tool_call sampleState okUpstream (Json.num 3)
      (.obj [("name", Json.str "ask_gemini"), ("arguments", Json.obj [])]) =
      .responded (okToolResponse (Json.num 3) ("🤖 GEMINI RESPONSE:\n\n" ++
        call_gemini sampleState okUpstream (.str "") (.num (0.5 : Rat)) .null (.bool true))) ∧
    handle_tool_call sampleState okUpstream (Json.num 3)
      (.obj [("name", Json.str "gemini_code_review"), ("arguments", Json.obj [])]) =
      .responded (okToolResponse (Json.num 3) ("🤖 GEMINI RESPONSE:\n\n" ++
        call_gemini sampleState okUpstream
          (.str (codeReviewPrompt (.str "") (.str "general")))
          (.num (0.2 : Rat)) .null (.bool true))) ∧
    handle_tool_call sampleState okUpstream (Json.num 3)
      (.obj [("name", Json.str "gemini_brainstorm"), ("arguments", Json.obj [])]) =
      .responded (okToolResponse (Json.num 3) ("🤖 GEMINI RESPONSE:\n\n" ++
        call_gemini sampleState okUpstream
          (.str (brainstormPrompt (.str "") (.str "")))
          (.num (0.7 : Rat)) .null (.bool true))) :=
  missing_required_argument_defaults sampleState okUpstream (Json.num 3) [] rfl rfl rfl rfl

/-- Claim C5, counterexample: the line `5` parses successfully as JSON,
yet the loop emits zero output lines for it — `request.get` raises
before `request_id` is ever bound, and the outer handler stays silent. -/
theorem nonobject_json_line_zero_output :
    processLines sampleState okUpstream none [.parsed (Json.num 5)] = [] := rfl

/-- Claim C5 (amended): for every input line that parses as a JSON
object, the transport loop writes exactly one response line — never zero
and never more than one. -/
theorem object_line_exactly_one_response
    (st : ServerState) (up : Upstream) (s : Option Json)
    (fields : List (String × Json)) :
    ((processLine st up s (.parsed (.obj fields))).2).length = 1 := rfl

/-- Claim C6 (confirmed): a malformed JSON input line produces zero
output lines, leaves the loop state unchanged, and the processing of
every subsequent line is exactly what it would have been without it. -/
theorem malformed_line_no_output_no_effect
    (st : ServerState) (up : Upstream) (s : Option Json) (rest : List InLine) :
    processLine st up s .malformed = (s, []) ∧
    processLines st up s (.malformed :: rest) = processLines st up s rest :=
  ⟨rfl, rfl⟩

/-- Claim C7 (confirmed): for every `tools/call` whose tool name is not
in the registry, the handler responds (it does not raise) with a
`-32603` error envelope naming the unknown tool. -/
theorem unknown_tool_error_envelope
    (st : ServerState) (up : Upstream) (rid : Json) (pfields : List (String × Json))
    (h : isKnownTool (dictGet pfields "name" .null) = false) :
    handle_tool_call st up rid (.obj pfields) =
    .responded (errResponse rid (-32603)
      ("Unknown tool: " ++ pyStr (dictGet pfields "name" .null))) := by
  simp only [isKnownTool, Bool.or_eq_false_iff] at h
  obtain ⟨⟨⟨h1, h2⟩, h3⟩, h4⟩ := h
  simp only [handle_tool_call, toolResultText, h1, h2, h3, h4]
  rfl

/-- Claim C7 witness: the unknown tool name `bogus`. -/
theorem unknown_tool_error_envelope_witness :
    isKnownTool (dictGet [("name", Json.str "bogus")] "name" Json.null) = false ∧
    handle_tool_call sampleState okUpstream (Json.num 2)
      (.obj [("name", Json.str "bogus")]) =
    .responded (errResponse (Json.num 2) (-32603) "Unknown tool: bogus") :=
  ⟨rfl, unknown_tool_error_envelope sampleState okUpstream (Json.num 2)
    [("name", Json.str "bogus")] rfl⟩

/-- Claim C8 (confirmed): every `initialize` request is answered by
`handle_initialize` on the request's extracted `id`, and
`handle_initialize` echoes any `id` — null, string or number — verbatim,
never interpreting it. -/
theorem initialize_echoes_id
    (st : ServerState) (up : Upstream) (s : Option Json)
    (fields : List (String × Json))
    (h : dictGet fields "method" .null = .str "initialize") :
    (processLine st up s (.parsed (.obj fields))).2 =
      [ handle_initialize (dictGet fields "id" .null)] ∧
    ∀ rid : Json, ( handle_initialize rid).id = rid := by
  constructor
  · simp only [processLine, h]
    rfl
  · intro rid; rfl

/-- Claim C8 witness: an `initialize` request with the string id `abc`. -/
theorem initialize_echoes_id_witness :
    (processLine sampleState okUpstream none
      (.parsed (.obj [("method", Json.str "initialize"), ("id", Json.str "abc")]))).2 =
      [ handle_initialize (Json.str "abc")] ∧
    ( handle_initialize (Json.str "abc")).id = Json.str "abc" :=
  ⟨(initialize_echoes_id sampleState okUpstream none
      [("method", Json.str "initialize"), ("id", Json.str "abc")] rfl).1,
   (initialize_echoes_id sampleState okUpstream none
      [("method", Json.str "initialize"), ("id", Json.str "abc")] rfl).2 (Json.str "abc")⟩

/-- Claim C9 (confirmed): `call_gemini` always returns a string, for
every prompt, temperature, model name and include-system-prompt value
and whatever the upstream does: the result is the unknown-model listing,
or the caught `TypeError` text when an unhashable model value hits the
membership test (no upstream call), or — when the upstream raises — the
failure detail behind the `Error calling Gemini:` prefix, or the
upstream text (possibly behind the `Using` banner). No exception passes
its boundary. -/
theorem call_gemini_never_raises (st : ServerState) (up : Upstream) (p tq m i : Json) :
    call_gemini st up p tq m i = unknownModelMsg m ∨
    call_gemini st up p tq m i = "Error calling Gemini: unhashable type: \x27list\x27" ∨
    call_gemini st up p tq m i = "Error calling Gemini: unhashable type: \x27dict\x27" ∨
    (∃ used e, up used (finalPrompt st p i) tq 8192 = .error e ∧
        call_gemini st up p tq m i = "Error calling Gemini: " ++ e) ∨
    (∃ used t, up used (finalPrompt st p i) tq 8192 = .ok t ∧
        (call_gemini st up p tq m i = t ∨
         call_gemini st up p tq m i = "✨ Using " ++ used ++ "\n\n" ++ t)) := by
  have hcg : call_gemini st up p tq m i =
      if pyTruthy m && !jsonIsStr m st.modelName then
        match m with
        | .str s =>
            if (lookupModel s).isNone then unknownModelMsg (.str s)
            else runModel st up s p tq i
        | .arr _ => "Error calling Gemini: unhashable type: \x27list\x27"
        | .obj _ => "Error calling Gemini: unhashable type: \x27dict\x27"
        | other => unknownModelMsg other
      else runModel st up st.modelName p tq i := rfl
  by_cases hb : (pyTruthy m && !jsonIsStr m st.modelName) = true
  · rw [if_pos hb] at hcg
    cases m with
    | str s =>
        simp only [] at hcg
        by_cases hl : ((lookupModel s).isNone = true)
        · rw [if_pos hl] at hcg
          exact Or.inl hcg
        · rw [if_neg hl] at hcg
          rw [hcg]
          rcases runModel_cases st up s p tq i with ⟨e, hu, hr⟩ | ⟨t, hu, hr⟩
          · exact Or.inr (Or.inr (Or.inr (Or.inl ⟨s, e, hu, hr⟩)))
          · exact Or.inr (Or.inr (Or.inr (Or.inr ⟨s, t, hu, hr⟩)))
    | null => exact Or.inl hcg
    | bool b => exact Or.inl hcg
    | num q => exact Or.inl hcg
    | arr elems => exact Or.inr (Or.inl hcg)
    | obj fields => exact Or.inr (Or.inr (Or.inl hcg))
  · rw [if_neg hb] at hcg
    rw [hcg]
    rcases runModel_cases st up st.modelName p tq i with ⟨e, hu, hr⟩ | ⟨t, hu, hr⟩
    · exact Or.inr (Or.inr (Or.inr (Or.inl ⟨st.modelName, e, hu, hr⟩)))
    · exact Or.inr (Or.inr (Or.inr (Or.inr ⟨st.modelName, t, hu, hr⟩)))

/-- The unhashable-model path at a concrete input: `model` set to the
JSON array `[1]` with a succeeding upstream yields the caught
`TypeError` text, not the unknown-model listing and not upstream text. -/
theorem call_gemini_unhashable_model_example :
    call_gemini sampleState okUpstream (Json.str "hi") (Json.num (0.5 : Rat))
      (Json.arr [Json.num 1]) (Json.bool true) =
    "Error calling Gemini: unhashable type: \x27list\x27" := rfl

/-- Claim C10 (confirmed): when request params lack the `name` key, the
tool name defaults to `None`, falls through to the unknown-tool branch,
and the response is a `-32603` error envelope whose message names the
tool as `None`. -/
theorem missing_name_treated_as_unknown_tool_none
    (st : ServerState) (up : Upstream) (rid : Json) (pfields : List (String × Json))
    (h : pfields.find? (fun kv => kv.1 == "name") = none) :
    handle_tool_call st up rid (.obj pfields) =
    .responded (errResponse rid (-32603) "Unknown tool: None") := by
  have hname : dictGet pfields "name" .null = .null := by
    unfold dictGet; rw [h]
  simp only [handle_tool_call, hname, toolResultText, jsonIsStr]
  rfl

/-- Claim C10 witness: params carrying only an `arguments` key. -/
theorem missing_name_treated_as_unknown_tool_none_witness :
    List.find? (fun kv => kv.1 == "name") [("arguments", Json.obj [])] = none ∧
    handle_tool_call sampleState okUpstream (Json.num 4)
      (.obj [("arguments", Json.obj [])]) =
    .responded (errResponse (Json.num 4) (-32603) "Unknown tool: None") :=
  ⟨rfl, missing_name_treated_as_unknown_tool_none sampleState okUpstream (Json.num 4)
    [("arguments", Json.obj [])] rfl⟩

end GeminiMCP
